import Mathlib

/-!
Verification development for the instance lifecycle and DNS orchestrator
(`devops/tasks/orchlib/aws.py`).  The provider (EC2 / Route 53) is modelled
as explicit world data passed to each operation; every operation returns its
result together with the list of provider-visible events it emits, in order.
-/

namespace Orchlib

/-- One provider tag, as it appears in instance records and create requests. -/
structure Tag where
  key : String
  value : String
deriving DecidableEq, Repr

/-- Insert a key into a string-keyed dictionary, replacing an existing
binding (Python dict semantics: later assignment wins). -/
def dictInsert (d : List (String × String)) (k v : String) :
    List (String × String) :=
  if d.any (fun p => p.1 == k) then
    d.map (fun p => if p.1 == k then (k, v) else p)
  else
    d ++ [(k, v)]

/-- The dict comprehension over tags in `list_instances`:
`tag Key mapsto tag Value` for each tag, later keys overriding earlier. -/
def tagsToDict (tags : List Tag) : List (String × String) :=
  tags.foldl (fun d t => dictInsert d t.key t.value) []

/-- Python `d[k]` rendered total: `some` of the bound value, `none` when the
key is absent (where the source would raise `KeyError`). -/
def dictGet (d : List (String × String)) (k : String) : Option String :=
  (d.find? (fun p => p.1 == k)).map (fun p => p.2)

/-- One raw instance record as returned inside a reservation by the
provider's describe-instances call. -/
structure RawInstance where
  instanceId : String
  tags : List Tag
  publicIpAddress : Option String
  state : String
deriving DecidableEq, Repr

/-- The EC2 side of the world: the reservation/instance grouping that the
provider would return, before server-side filtering. -/
structure Ec2State where
  reservations : List (List RawInstance)
deriving DecidableEq, Repr

/-- A describe-instances filter, as passed in the source
(`'Name': 'tag:deploy-group', 'Values': ['learning-observer']`). -/
structure Filter where
  name : String
  values : List String
deriving DecidableEq, Repr

/-- The filter `list_instances` passes to describe-instances. -/
def deployFilter : Filter :=
  { name := "tag:deploy-group", values := ["learning-observer"] }

/-- Provider semantics of a `tag:KEY` filter: the instance carries a tag
with that key whose value is among the filter values. -/
def matchesFilter (f : Filter) (i : RawInstance) : Bool :=
  i.tags.any (fun t => ("tag:" ++ t.key == f.name) && f.values.contains t.value)

/-- The provider's describe-instances call: instances failing the filters
are dropped, the reservation grouping is kept. -/
def describe_instances (s : Ec2State) (filters : List Filter) :
    List (List RawInstance) :=
  s.reservations.map (fun r =>
    r.filter (fun i => filters.all (fun f => matchesFilter f i)))

/-- The compact per-instance summary built by `list_instances`. -/
structure InstanceSummary where
  instanceId : String
  tags : List (String × String)
  publicIpAddress : String
deriving DecidableEq, Repr

/-- The summary dictionary built for one raw instance:
`i.get('PublicIpAddress', "--.--.--.--")` supplies the sentinel when the
address is absent. -/
def summarize (i : RawInstance) : InstanceSummary :=
  { instanceId := i.instanceId
    tags := tagsToDict i.tags
    publicIpAddress :=
      match i.publicIpAddress with
      | none => "--.--.--.--"
      | some a => a }

/-- `list_instances`: describe with the deploy-group filter, flatten the
reservations (`sum([...], [])`), summarize each instance. -/
def list_instances (s : Ec2State) : List InstanceSummary :=
  let reservations := describe_instances s [deployFilter]
  let instances := reservations.flatten
  instances.map summarize

/-- Fixed EBS volume parameters of the create request. -/
structure Ebs where
  deleteOnTermination : Bool
  volumeSize : Nat
  volumeType : String
deriving DecidableEq, Repr

/-- One block device mapping of the create request. -/
structure BlockDeviceMapping where
  deviceName : String
  ebs : Ebs
deriving DecidableEq, Repr

/-- One network interface specification of the create request. -/
structure NetworkInterfaceSpec where
  subnetId : String
  deviceIndex : Nat
  associatePublicIpAddress : Bool
  groups : List String
deriving DecidableEq, Repr

/-- The configuration object `orchlib.config.creds`, consumed opaquely. -/
structure Config where
  aws_keyname : String
  aws_subnet_id : String
  aws_security_group : String
  owner : String
deriving DecidableEq, Repr

/-- The fixed machine image identifier `UBUNTU_20_04`. -/
def UBUNTU_20_04 : String := "ami-09e67e426f25ce0d7"

/-- The full argument record `create_instance` hands to the provider's
create-instances call. -/
structure CreateRequest where
  imageId : String
  instanceType : String
  blockDeviceMappings : List BlockDeviceMapping
  keyName : String
  minCount : Nat
  maxCount : Nat
  availabilityZone : String
  networkInterfaces : List NetworkInterfaceSpec
  tags : List Tag
deriving DecidableEq, Repr

/-- The create request as the source builds it, field for field. -/
def mkCreateRequest (cfg : Config) (name : String) : CreateRequest :=
  { imageId := UBUNTU_20_04
    instanceType := "t2.nano"
    blockDeviceMappings :=
      [{ deviceName := "/dev/xvda"
         ebs := { deleteOnTermination := true, volumeSize := 32, volumeType := "gp2" } }]
    keyName := cfg.aws_keyname
    minCount := 1
    maxCount := 1
    availabilityZone := "us-east-1b"
    networkInterfaces :=
      [{ subnetId := cfg.aws_subnet_id
         deviceIndex := 0
         associatePublicIpAddress := true
         groups := [cfg.aws_security_group] }]
    tags :=
      [{ key := "Name", value := name },
       { key := "Owner", value := cfg.owner },
       { key := "deploy-group", value := "learning-observer" }] }

/-- The fields of a Route 53 record change submitted by `register_dns`. -/
structure RecordChange where
  zoneId : String
  action : String
  name : String
  rtype : String
  ttl : Nat
  value : String
deriving DecidableEq, Repr

/-- One provider-visible event, in the order the operations emit them. -/
inductive Event where
  | sleep (seconds : Nat)
  | listHostedZones (domain : String)
  | changeRecordSets (c : RecordChange)
  | getChange (id : String)
  | describeInstancesCall (filters : List Filter)
  | terminateCall (ids : List String)
  | createCall (req : CreateRequest)
  | waitUntilRunning (id : String)
  | refetchInstance (id : String)
deriving DecidableEq, Repr

/-- A boto instance object as `create_instance` sees it: identifier, state
name, and the possibly-absent public address. -/
structure CreatedInstance where
  instance_id : String
  state : String
  public_ip_address : Option String
deriving DecidableEq, Repr

/-- The provider responses `create_instance` consumes: the list returned by
the create call, and the record a re-fetch of the instance yields after the
wait-until-running step has returned. -/
structure CreateWorld where
  createResponse : List CreatedInstance
  refetched : CreatedInstance
deriving DecidableEq, Repr

/-- Failure of provisioning: the provider rejected creation (the source
lets the provider exception propagate; `response[0]` on an empty response). -/
inductive ProvisionError where
  | creationRejected
deriving DecidableEq, Repr

/-- `create_instance`: submit the fixed create request, take the first
returned instance, wait until it is running, then re-fetch it by id (the
re-fetch, not the creation response, is what is returned). -/
def create_instance (w : CreateWorld) (cfg : Config) (name : String) :
    Except ProvisionError CreatedInstance × List Event :=
  let req := mkCreateRequest cfg name
  match w.createResponse with
  | [] => (Except.error ProvisionError.creationRejected, [Event.createCall req])
  | inst :: _ =>
      (Except.ok w.refetched,
       [Event.createCall req,
        Event.waitUntilRunning inst.instance_id,
        Event.refetchInstance inst.instance_id])

/-- The `ChangeInfo` block of a Route 53 change-submission response. -/
structure ChangeInfo where
  id : String
  status : String
deriving DecidableEq, Repr

/-- One hosted zone as returned by the zone listing. -/
structure HostedZone where
  id : String
deriving DecidableEq, Repr

/-- The Route 53 side of the world for one `register_dns` call: the zones
the domain lookup yields, the change-submission response, and the statuses
the successive get-change polls would report.  `pollStatuses` is a finite
observation window of the unbounded polling loop: the loop is still running
past the window when no entry reads INSYNC. -/
structure R53World where
  zones : List HostedZone
  submitInfo : ChangeInfo
  pollStatuses : List String
deriving DecidableEq, Repr

/-- Outcome of `register_dns`: the zone-count exception, the modelled
observation window ending with the polling loop still running, or a
returned value. -/
inductive RegisterResult where
  | zoneError
  | stillPolling
  | ok (b : Bool)
deriving DecidableEq, Repr

/-- The record name format of the change: subdomain, dot, domain,
trailing dot. -/
def recordName (subdomain domain : String) : String :=
  subdomain ++ "." ++ domain ++ "."

/-- The single change `register_dns` submits, built from the resolved zone
and its arguments. -/
def theChange (w : R53World) (subdomain domain ip action : String) : RecordChange :=
  { zoneId := (w.zones.headD { id := "" }).id
    action := action
    name := recordName subdomain domain
    rtype := "A"
    ttl := 15
    value := ip }

/-- The polling loop body over the observation window: each iteration
sleeps one second then issues a get-change poll; the loop exits when the
polled status reads INSYNC.  Returns whether the loop exited inside the
window, with the events it emitted. -/
def pollLoop (id : String) : List String → Bool × List Event
  | [] => (false, [])
  | s :: rest =>
      let evs := [Event.sleep 1, Event.getChange id]
      if s = "INSYNC" then (true, evs)
      else
        let r := pollLoop id rest
        (r.1, evs ++ r.2)

/-- `register_dns`: resolve the hosted zone (exception unless exactly one
matches), submit one UPSERT or DELETE change for the A record with TTL 15,
then, only when upserting, poll get-change at a one-second cadence until
INSYNC before returning `true`. -/
def register_dns (w : R53World) (subdomain domain ip : String)
    (unregister : Bool) : RegisterResult × List Event :=
  let action := if unregister then "DELETE" else "UPSERT"
  if w.zones.length = 1 then
    let change := theChange w subdomain domain ip action
    let evs1 := [Event.listHostedZones domain, Event.changeRecordSets change]
    if unregister then
      (RegisterResult.ok true, evs1)
    else
      let r := pollLoop w.submitInfo.id w.pollStatuses
      if r.1 then (RegisterResult.ok true, evs1 ++ r.2)
      else (RegisterResult.stillPolling, evs1 ++ r.2)
  else
    (RegisterResult.zoneError, [Event.listHostedZones domain])

/-- The comprehension filtering the inventory by Name tag
(`[i for i in instances if i.Tags.Name == name]`): raises KeyError at the
first summary whose tag dictionary lacks the key `Name`. -/
def matchName (name : String) : List InstanceSummary → Except String (List InstanceSummary)
  | [] => Except.ok []
  | i :: rest =>
      match dictGet i.tags "Name" with
      | none => Except.error "Name"
      | some v =>
          match matchName name rest with
          | Except.error k => Except.error k
          | Except.ok r => Except.ok (if v = name then i :: r else r)

/-- Outcome of `terminate_instances`: a KeyError from the Name lookup, the
propagated zone exception from a DNS delete, or the returned count. -/
inductive TermResult where
  | keyError (k : String)
  | zoneError
  | ok (n : Nat)
deriving DecidableEq, Repr

/-- The countdown before DNS removal: ten one-second sleeps. -/
def countdownEvents : List Event := List.replicate 10 (Event.sleep 1)

/-- The DNS-removal pass of `terminate_instances`: one `register_dns`
delete per matched instance, with the zone exception propagating. -/
def dnsDeletes (w : R53World) (name : String) :
    List InstanceSummary → Bool × List Event
  | [] => (true, [])
  | i :: rest =>
      let r := register_dns w name "learning-observer.org" i.publicIpAddress true
      match r.1 with
      | RegisterResult.ok _ =>
          let r2 := dnsDeletes w name rest
          (r2.1, r.2 ++ r2.2)
      | _ => (false, r.2)

/-- `terminate_instances`: snapshot the inventory once, filter it by Name
tag, wait ten seconds, delete each match's DNS record under the fixed
domain learning-observer.org, then submit one terminate request carrying
all matched instance ids, and return the number of matches. -/
def terminate_instances (e : Ec2State) (w : R53World) (name : String) :
    TermResult × List Event :=
  let instances := list_instances e
  let evs0 := [Event.describeInstancesCall [deployFilter]]
  match matchName name instances with
  | Except.error k => (TermResult.keyError k, evs0)
  | Except.ok matching =>
      let evs1 := evs0 ++ countdownEvents
      let d := dnsDeletes w name matching
      if d.1 then
        (TermResult.ok matching.length,
         evs1 ++ d.2 ++ [Event.terminateCall (matching.map (fun i => i.instanceId))])
      else
        (TermResult.zoneError, evs1 ++ d.2)

/-- `name_to_group`: the space-joined pool string of public addresses of
instances matching the machine name, handed to the external grouping
function; the Name lookup can raise KeyError exactly as in
`terminate_instances`. -/
def name_to_group (e : Ec2State) (machine_name : String) : Except String String :=
  match matchName machine_name (list_instances e) with
  | Except.error k => Except.error k
  | Except.ok ms =>
      Except.ok (String.intercalate " " (ms.map (fun i => i.publicIpAddress)))

/-- Whether an event is a get-change poll. -/
def isGetChange : Event → Bool
  | Event.getChange _ => true
  | _ => false

/-- Number of get-change polls in a trace. -/
def numPolls (evs : List Event) : Nat := (evs.filter isGetChange).length

/-- Whether an event is a record-change submission. -/
def isChangeCall : Event → Bool
  | Event.changeRecordSets _ => true
  | _ => false

/-- Whether an event is a terminate request. -/
def isTerminateCall : Event → Bool
  | Event.terminateCall _ => true
  | _ => false

/-- Whether an event is a record-change submission for the given record
name. -/
def isChangeNamed (n : String) : Event → Bool
  | Event.changeRecordSets c => c.name == n
  | _ => false

/-- A trace made of one-second-cadence polling rounds: each get-change poll
for the submitted change id is immediately preceded by a one-second sleep,
and nothing else occurs. -/
def pollShape (id : String) : List Event → Bool
  | [] => true
  | Event.sleep 1 :: Event.getChange i :: rest => i == id && pollShape id rest
  | _ => false

theorem pollLoop_true_iff (id : String) (sts : List String) :
    (pollLoop id sts).1 = true ↔ "INSYNC" ∈ sts := by
  induction sts with
  | nil => simp [pollLoop]
  | cons s rest ih =>
      by_cases h : s = "INSYNC" <;>
        simp [pollLoop, h, ih, List.mem_cons, eq_comm]

theorem pollLoop_shape (id : String) (sts : List String) :
    pollShape id (pollLoop id sts).2 = true := by
  induction sts with
  | nil => simp [pollLoop, pollShape]
  | cons s rest ih =>
      by_cases h : s = "INSYNC" <;>
        simp [pollLoop, h, pollShape, ih]

theorem pollLoop_last_poll (id : String) (sts : List String)
    (h : (pollLoop id sts).1 = true) :
    1 ≤ numPolls (pollLoop id sts).2 ∧
      sts[numPolls (pollLoop id sts).2 - 1]? = some "INSYNC" := by
  induction sts with
  | nil => simp [pollLoop] at h
  | cons s rest ih =>
      by_cases hs : s = "INSYNC"
      · simp [pollLoop, hs, numPolls, isGetChange]
      · simp only [pollLoop, if_neg hs] at h ⊢
        have h' : (pollLoop id rest).1 = true := h
        obtain ⟨h1, h2⟩ := ih h'
        constructor
        · simp [numPolls, List.filter_append, isGetChange]
        · have hcount : numPolls ([Event.sleep 1, Event.getChange id] ++
              (pollLoop id rest).2) = numPolls (pollLoop id rest).2 + 1 := by
            simp [numPolls, List.filter_append, isGetChange, Nat.add_comm]
          rw [hcount]
          obtain ⟨m, hm⟩ : ∃ m, numPolls (pollLoop id rest).2 = m + 1 :=
            ⟨numPolls (pollLoop id rest).2 - 1, by omega⟩
          rw [hm] at h2 ⊢
          simpa using h2

theorem tagPrefixCancel {b c : String} (h : "tag:" ++ b = "tag:" ++ c) :
    b = c := by
  have hd := congrArg String.data h
  simp only [String.data_append] at hd
  exact String.ext (List.append_cancel_left hd)

theorem pollLoop_take_two (id : String) (sts : List String) (h : sts ≠ []) :
    (pollLoop id sts).2.take 2 = [Event.sleep 1, Event.getChange id] := by
  cases sts with
  | nil => exact absurd rfl h
  | cons s rest =>
      by_cases hs : s = "INSYNC" <;> simp [pollLoop, hs]

theorem dnsDeletes_ok (w : R53World) (name : String)
    (hz : w.zones.length = 1) (ms : List InstanceSummary) :
    dnsDeletes w name ms =
      (true,
       (ms.map (fun i =>
          [Event.listHostedZones "learning-observer.org",
           Event.changeRecordSets
             (theChange w name "learning-observer.org" i.publicIpAddress
               "DELETE")])).flatten) := by
  induction ms with
  | nil => simp [dnsDeletes]
  | cons i rest ih => simp [dnsDeletes, register_dns, hz, ih]

theorem matchName_ok (name : String) (l : List InstanceSummary)
    (h : ∀ i ∈ l, dictGet i.tags "Name" ≠ none) :
    ∃ ms, matchName name l = Except.ok ms := by
  induction l with
  | nil => exact ⟨[], rfl⟩
  | cons i rest ih =>
      have hi := h i (List.mem_cons_self i rest)
      obtain ⟨v, hv⟩ : ∃ v, dictGet i.tags "Name" = some v := by
        cases hd : dictGet i.tags "Name" with
        | none => exact absurd hd hi
        | some v => exact ⟨v, rfl⟩
      obtain ⟨ms, hms⟩ := ih (fun j hj => h j (List.mem_cons_of_mem i hj))
      exact ⟨if v = name then i :: ms else ms, by simp [matchName, hv, hms]⟩

/-- A Route 53 world with exactly one zone where the change goes in sync on
the second poll. -/
def exR53 : R53World :=
  { zones := [{ id := "Z1" }]
    submitInfo := { id := "chg1", status := "PENDING" }
    pollStatuses := ["PENDING", "INSYNC"] }

/-- A Route 53 world whose change-submission response already reports
INSYNC. -/
def exR53Insync : R53World :=
  { zones := [{ id := "Z1" }]
    submitInfo := { id := "chg1", status := "INSYNC" }
    pollStatuses := ["INSYNC"] }

/-- A Route 53 world where the domain lookup yields no zone. -/
def exR53NoZones : R53World :=
  { zones := []
    submitInfo := { id := "chg1", status := "PENDING" }
    pollStatuses := ["INSYNC"] }

/-- A Route 53 world where the domain lookup yields two zones. -/
def exR53TwoZones : R53World :=
  { zones := [{ id := "Z1" }, { id := "Z2" }]
    submitInfo := { id := "chg1", status := "PENDING" }
    pollStatuses := ["INSYNC"] }

/-- An inventoried instance named alice with a real address. -/
def aliceRaw : RawInstance :=
  { instanceId := "i-alice"
    tags := [{ key := "Name", value := "alice" },
             { key := "deploy-group", value := "learning-observer" }]
    publicIpAddress := some "1.2.3.4"
    state := "running" }

/-- An EC2 world holding only alice. -/
def eAlice : Ec2State := { reservations := [[aliceRaw]] }

/-- First of two instances sharing the name dup. -/
def dupRawA : RawInstance :=
  { instanceId := "i-dup1"
    tags := [{ key := "Name", value := "dup" },
             { key := "deploy-group", value := "learning-observer" }]
    publicIpAddress := some "10.0.0.1"
    state := "running" }

/-- Second of two instances sharing the name dup. -/
def dupRawB : RawInstance :=
  { instanceId := "i-dup2"
    tags := [{ key := "Name", value := "dup" },
             { key := "deploy-group", value := "learning-observer" }]
    publicIpAddress := some "10.0.0.2"
    state := "running" }

/-- An EC2 world holding the two same-named instances, in two
reservations. -/
def eDup : Ec2State := { reservations := [[dupRawA], [dupRawB]] }

/-- The summaries the inventory yields for the two dup instances. -/
def dupSummaries : List InstanceSummary := [summarize dupRawA, summarize dupRawB]

/-- An instance carrying the deployment marker but no Name tag. -/
def noNameRaw : RawInstance :=
  { instanceId := "i-anon"
    tags := [{ key := "deploy-group", value := "learning-observer" }]
    publicIpAddress := some "10.0.0.9"
    state := "running" }

/-- An EC2 world holding the tagless-Name instance. -/
def eNoName : Ec2State := { reservations := [[noNameRaw]] }

/-- An instance with the marker tag but no address yet. -/
def noIpRaw : RawInstance :=
  { instanceId := "i-noip"
    tags := [{ key := "Name", value := "fresh" },
             { key := "deploy-group", value := "learning-observer" }]
    publicIpAddress := none
    state := "pending" }

/-- An instance outside the deployment (no marker tag). -/
def strangerRaw : RawInstance :=
  { instanceId := "i-stranger"
    tags := [{ key := "Name", value := "stranger" }]
    publicIpAddress := some "9.9.9.9"
    state := "running" }

/-- A mixed EC2 world: alice, a foreign instance, and an addressless
instance. -/
def eMixed : Ec2State :=
  { reservations := [[aliceRaw, strangerRaw], [noIpRaw]] }

/-- An example configuration object. -/
def exCfg : Config :=
  { aws_keyname := "key0"
    aws_subnet_id := "subnet-0"
    aws_security_group := "sg-0"
    owner := "owner0" }

/-- A create world whose creation response still lacks the address and is
not yet running, while the post-wait re-fetch is running with an
address. -/
def exCreateWorld : CreateWorld :=
  { createResponse := [{ instance_id := "i-new", state := "pending",
                         public_ip_address := none }]
    refetched := { instance_id := "i-new", state := "running",
                   public_ip_address := some "3.4.5.6" } }

/-- Claim C1: with `unregister=true`, `register_dns` submits the delete
change and returns true immediately, issuing no get-change poll at all;
with `unregister=false` it returns true only after get-change polling (at a
one-second cadence, after the change is submitted) observes INSYNC: the
status read by the final poll is INSYNC. -/
theorem C1_register_dns_modes (w : R53World) (sub dom ip : String)
    (hz : w.zones.length = 1) :
    ((register_dns w sub dom ip true).1 = RegisterResult.ok true ∧
      (register_dns w sub dom ip true).2 =
        [Event.listHostedZones dom,
         Event.changeRecordSets (theChange w sub dom ip "DELETE")] ∧
      numPolls (register_dns w sub dom ip true).2 = 0) ∧
    (((register_dns w sub dom ip false).1 = RegisterResult.ok true ↔
        "INSYNC" ∈ w.pollStatuses) ∧
      ((register_dns w sub dom ip false).1 = RegisterResult.ok true →
        (register_dns w sub dom ip false).2 =
          [Event.listHostedZones dom,
           Event.changeRecordSets (theChange w sub dom ip "UPSERT")] ++
            (pollLoop w.submitInfo.id w.pollStatuses).2 ∧
        pollShape w.submitInfo.id
            (pollLoop w.submitInfo.id w.pollStatuses).2 = true ∧
        1 ≤ numPolls (register_dns w sub dom ip false).2 ∧
        w.pollStatuses[numPolls (register_dns w sub dom ip false).2 - 1]? =
          some "INSYNC")) := by
  have hdel : register_dns w sub dom ip true =
      (RegisterResult.ok true,
       [Event.listHostedZones dom,
        Event.changeRecordSets (theChange w sub dom ip "DELETE")]) := by
    simp [register_dns, hz]
  refine ⟨⟨?_, ?_, ?_⟩, ?_⟩
  · rw [hdel]
  · rw [hdel]
  · rw [hdel]; simp [numPolls, isGetChange]
  by_cases hp : (pollLoop w.submitInfo.id w.pollStatuses).1 = true
  · have hup : register_dns w sub dom ip false =
        (RegisterResult.ok true,
         [Event.listHostedZones dom,
          Event.changeRecordSets (theChange w sub dom ip "UPSERT")] ++
           (pollLoop w.submitInfo.id w.pollStatuses).2) := by
      simp [register_dns, hz, hp]
    have hmem : "INSYNC" ∈ w.pollStatuses :=
      (pollLoop_true_iff w.submitInfo.id w.pollStatuses).mp hp
    have hnum : numPolls (register_dns w sub dom ip false).2 =
        numPolls (pollLoop w.submitInfo.id w.pollStatuses).2 := by
      rw [hup]
      simp [numPolls, List.filter_append, isGetChange]
    obtain ⟨h1, h2⟩ := pollLoop_last_poll w.submitInfo.id w.pollStatuses hp
    refine ⟨by simp [hup, hmem], fun _ => ⟨by rw [hup], ?_, ?_, ?_⟩⟩
    · exact pollLoop_shape w.submitInfo.id w.pollStatuses
    · rw [hnum]; exact h1
    · rw [hnum]; exact h2
  · have hup : register_dns w sub dom ip false =
        (RegisterResult.stillPolling,
         [Event.listHostedZones dom,
          Event.changeRecordSets (theChange w sub dom ip "UPSERT")] ++
           (pollLoop w.submitInfo.id w.pollStatuses).2) := by
      simp [register_dns, hz, hp]
    have hmem : "INSYNC" ∉ w.pollStatuses := fun hc =>
      hp ((pollLoop_true_iff w.submitInfo.id w.pollStatuses).mpr hc)
    refine ⟨by simp [hup, hmem], fun hc => ?_⟩
    rw [hup] at hc
    exact absurd hc (by simp)

/-- Claim C1 witness: at the concrete one-zone world, the delete call
returns true with no poll and the upsert call returns true, INSYNC being in
the poll window. -/
theorem C1_witness :
    (register_dns exR53 "alice" "example.org" "1.2.3.4" true).1 =
        RegisterResult.ok true ∧
    numPolls (register_dns exR53 "alice" "example.org" "1.2.3.4" true).2 = 0 ∧
    (register_dns exR53 "alice" "example.org" "1.2.3.4" false).1 =
        RegisterResult.ok true :=
  ⟨(C1_register_dns_modes exR53 "alice" "example.org" "1.2.3.4"
      (by decide)).1.1,
   (C1_register_dns_modes exR53 "alice" "example.org" "1.2.3.4"
      (by decide)).1.2.2,
   ((C1_register_dns_modes exR53 "alice" "example.org" "1.2.3.4"
      (by decide)).2.1).mpr (by decide)⟩

/-- Claim C2: when the hosted-zone lookup yields anything other than exactly
one zone, `register_dns` raises the zone-resolution error and submits no
record change (the trace is exactly the zone listing); with exactly one
zone the error is never raised. -/
theorem C2_zone_resolution (w : R53World) (sub dom ip : String) (ug : Bool) :
    (w.zones.length ≠ 1 →
      (register_dns w sub dom ip ug).1 = RegisterResult.zoneError ∧
      (register_dns w sub dom ip ug).2 = [Event.listHostedZones dom]) ∧
    (w.zones.length = 1 →
      (register_dns w sub dom ip ug).1 ≠ RegisterResult.zoneError) := by
  constructor
  · intro h
    constructor <;> simp [register_dns, h]
  · intro h
    by_cases hu : ug = true
    · simp [register_dns, h, hu]
    · have hu' : ug = false := by
        cases ug
        · rfl
        · exact absurd rfl hu
      by_cases hp : (pollLoop w.submitInfo.id w.pollStatuses).1 = true <;>
        simp [register_dns, h, hu', hp]

/-- Claim C2 witness: the zero-zone and two-zone worlds both fail with the
zone-resolution error and submit nothing; the one-zone world does not
fail. -/
theorem C2_witness :
    (register_dns exR53NoZones "a" "example.org" "1.2.3.4" false).1 =
        RegisterResult.zoneError ∧
    (register_dns exR53TwoZones "a" "example.org" "1.2.3.4" false).1 =
        RegisterResult.zoneError ∧
    (register_dns exR53 "a" "example.org" "1.2.3.4" false).1 ≠
        RegisterResult.zoneError :=
  ⟨((C2_zone_resolution exR53NoZones "a" "example.org" "1.2.3.4" false).1
      (by decide)).1,
   ((C2_zone_resolution exR53TwoZones "a" "example.org" "1.2.3.4" false).1
      (by decide)).1,
   (C2_zone_resolution exR53 "a" "example.org" "1.2.3.4" false).2
      (by decide)⟩

/-- Claim C3 counterexample: with no instance named ghost in the inventory,
`terminate_instances` does return 0 and issues no DNS change, but it still
submits a terminate request to the provider (with an empty id list),
refuting the claim that no terminate call is issued. -/
theorem C3_counterexample :
    (terminate_instances eAlice exR53 "ghost").1 = TermResult.ok 0 ∧
    (terminate_instances eAlice exR53 "ghost").2.filter isChangeCall = [] ∧
    (terminate_instances eAlice exR53 "ghost").2.filter isTerminateCall =
      [Event.terminateCall []] := by
  refine ⟨by decide, by decide, by decide⟩

/-- Claim C3 amended: when the inventory filter matches nothing,
`terminate_instances` returns 0 and issues no DNS change and no get-change
poll, but it still performs the ten-second countdown and still submits one
terminate request whose instance-id list is empty. -/
theorem C3_amended (e : Ec2State) (w : R53World) (name : String)
    (h : matchName name (list_instances e) = Except.ok []) :
    terminate_instances e w name =
      (TermResult.ok 0,
       [Event.describeInstancesCall [deployFilter]] ++ countdownEvents ++
         [Event.terminateCall []]) := by
  simp [terminate_instances, h, dnsDeletes]

/-- Claim C3 witness: the amended statement at the concrete ghost lookup. -/
theorem C3_witness :
    terminate_instances eAlice exR53 "ghost" =
      (TermResult.ok 0,
       [Event.describeInstancesCall [deployFilter]] ++ countdownEvents ++
         [Event.terminateCall []]) :=
  C3_amended eAlice exR53 "ghost" (by rfl)

/-- Claim C4: with at least one match, `terminate_instances` snapshots the
inventory once, waits ten one-second countdown steps, issues one DNS delete
per match (each a zone listing followed by a DELETE change submission, all
before any termination), then submits exactly one batched terminate request
carrying exactly the matched instance ids, and returns the number of
matches. -/
theorem C4_terminate_sequence (e : Ec2State) (w : R53World) (name : String)
    (ms : List InstanceSummary) (hz : w.zones.length = 1)
    (hm : matchName name (list_instances e) = Except.ok ms)
    (_hne : ms ≠ []) :
    terminate_instances e w name =
      (TermResult.ok ms.length,
       [Event.describeInstancesCall [deployFilter]] ++
         List.replicate 10 (Event.sleep 1) ++
         (ms.map (fun i =>
            [Event.listHostedZones "learning-observer.org",
             Event.changeRecordSets
               (theChange w name "learning-observer.org" i.publicIpAddress
                 "DELETE")])).flatten ++
         [Event.terminateCall (ms.map (fun i => i.instanceId))]) := by
  simp [terminate_instances, hm, dnsDeletes_ok w name hz, countdownEvents]

/-- Claim C4 witness: against the inventory holding two instances named
dup, both get a DNS delete and both ids appear in the single terminate
request, and the call returns 2. -/
theorem C4_witness :
    terminate_instances eDup exR53 "dup" =
      (TermResult.ok dupSummaries.length,
       [Event.describeInstancesCall [deployFilter]] ++
         List.replicate 10 (Event.sleep 1) ++
         (dupSummaries.map (fun i =>
            [Event.listHostedZones "learning-observer.org",
             Event.changeRecordSets
               (theChange exR53 "dup" "learning-observer.org"
                 i.publicIpAddress "DELETE")])).flatten ++
         [Event.terminateCall (dupSummaries.map (fun i => i.instanceId))]) :=
  C4_terminate_sequence eDup exR53 "dup" dupSummaries (by decide) (by rfl)
    (by decide)

/-- Claim C5: when creation succeeds and the provider's post-wait re-fetch
reports a running state and an assigned address, `create_instance` returns
exactly the re-fetched record, so the returned instance has state running
and a non-null public address; when the provider rejects creation, the call
fails with the provisioning error. -/
theorem C5_create_instance (w : CreateWorld) (cfg : Config) (name : String) :
    (w.createResponse ≠ [] →
      w.refetched.state = "running" →
      w.refetched.public_ip_address ≠ none →
      (create_instance w cfg name).1 = Except.ok w.refetched ∧
        ∀ inst, (create_instance w cfg name).1 = Except.ok inst →
          inst.state = "running" ∧ inst.public_ip_address ≠ none) ∧
    (w.createResponse = [] →
      (create_instance w cfg name).1 =
        Except.error ProvisionError.creationRejected) := by
  constructor
  · intro hne hrun haddr
    cases hc : w.createResponse with
    | nil => exact absurd hc hne
    | cons inst rest =>
        constructor
        · simp [create_instance, hc]
        · intro i hi
          simp [create_instance, hc] at hi
          rw [← hi]
          exact ⟨hrun, haddr⟩
  · intro hc
    simp [create_instance, hc]

/-- Claim C5 witness: for the concrete world whose creation response is
still pending with no address, the returned instance is the re-fetched one,
running with a real address. -/
theorem C5_witness :
    (create_instance exCreateWorld exCfg "alice").1 =
        Except.ok exCreateWorld.refetched ∧
    exCreateWorld.refetched.state = "running" ∧
    exCreateWorld.refetched.public_ip_address = some "3.4.5.6" :=
  ⟨((C5_create_instance exCreateWorld exCfg "alice").1 (by decide) (by decide)
      (by decide)).1,
   by decide, by decide⟩

theorem mem_list_instances (s : Ec2State) (summ : InstanceSummary) :
    summ ∈ list_instances s ↔
      ∃ res, res ∈ s.reservations ∧ ∃ raw, raw ∈ res ∧
        matchesFilter deployFilter raw = true ∧ summ = summarize raw := by
  simp only [list_instances, describe_instances, List.mem_map,
    List.mem_flatten]
  constructor
  · rintro ⟨raw, ⟨l, ⟨r, hr, rfl⟩, hrawl⟩, rfl⟩
    rw [List.mem_filter] at hrawl
    refine ⟨r, hr, raw, hrawl.1, ?_, rfl⟩
    simpa using hrawl.2
  · rintro ⟨res, hres, raw, hraw, hmf, rfl⟩
    refine ⟨raw, ⟨res.filter
      (fun i => List.all [deployFilter] (fun f => matchesFilter f i)),
      ⟨res, hres, rfl⟩, ?_⟩, rfl⟩
    exact List.mem_filter.mpr ⟨hraw, by simpa using hmf⟩

theorem matchesFilter_deploy {raw : RawInstance}
    (h : matchesFilter deployFilter raw = true) :
    ({ key := "deploy-group", value := "learning-observer" } : Tag) ∈
      raw.tags := by
  simp only [matchesFilter, deployFilter, List.any_eq_true,
    Bool.and_eq_true, beq_iff_eq] at h
  obtain ⟨t, ht, hkey, hval⟩ := h
  have hsplit : ("tag:deploy-group" : String) = "tag:" ++ "deploy-group" := by
    decide
  have hk : t.key = "deploy-group" := tagPrefixCancel (hkey.trans hsplit)
  have hv : t.value = "learning-observer" := by
    have := hval
    simp [List.contains] at this
    exact this
  cases t with
  | mk k v =>
      simp only at hk hv
      rw [hk, hv] at ht
      exact ht

theorem pollLoop_no_changes (id : String) (sts : List String)
    (c : RecordChange) : Event.changeRecordSets c ∉ (pollLoop id sts).2 := by
  induction sts with
  | nil => simp [pollLoop]
  | cons s rest ih =>
      by_cases hs : s = "INSYNC" <;> simp [pollLoop, hs, ih]

theorem register_dns_changes (w : R53World) (sub dom ip : String) (ug : Bool)
    (c : RecordChange)
    (h : Event.changeRecordSets c ∈ (register_dns w sub dom ip ug).2) :
    c = theChange w sub dom ip (if ug then "DELETE" else "UPSERT") := by
  by_cases hz : w.zones.length = 1
  · cases ug with
    | true =>
        simp [register_dns, hz] at h
        simpa using h
    | false =>
        by_cases hp : (pollLoop w.submitInfo.id w.pollStatuses).1 = true <;>
          · simp [register_dns, hz, hp] at h
            rcases h with h | h
            · simpa using h
            · exact absurd h (pollLoop_no_changes w.submitInfo.id
                w.pollStatuses c)
  · simp [register_dns, hz] at h

/-- Claim C6: `list_instances` flattens all reservations into one list and
returns exactly the instances carrying the deployment marker tag, with no
filtering by state (both the filter and the summary ignore the state
field); each summary carries the id, the full tag dictionary, and a string
address that is the raw address when present and exactly the sentinel
placeholder when absent. -/
theorem C6_list_instances (s : Ec2State) :
    (∀ summ, summ ∈ list_instances s ↔
      ∃ res, res ∈ s.reservations ∧ ∃ raw, raw ∈ res ∧
        matchesFilter deployFilter raw = true ∧ summ = summarize raw) ∧
    (∀ raw : RawInstance, raw.publicIpAddress = none →
      (summarize raw).publicIpAddress = "--.--.--.--") ∧
    (∀ raw : RawInstance, ∀ a, raw.publicIpAddress = some a →
      (summarize raw).publicIpAddress = a) ∧
    (∀ raw : RawInstance, ∀ st,
      matchesFilter deployFilter { raw with state := st } =
        matchesFilter deployFilter raw) ∧
    (∀ raw : RawInstance, ∀ st,
      summarize { raw with state := st } = summarize raw) := by
  refine ⟨mem_list_instances s, ?_, ?_, ?_, ?_⟩
  · intro raw h
    simp [summarize, h]
  · intro raw a h
    simp [summarize, h]
  · intro raw st
    rfl
  · intro raw st
    rfl

/-- Claim C6 witness: in the mixed world the addressless instance appears
with exactly the sentinel address. -/
theorem C6_witness :
    summarize noIpRaw ∈ list_instances eMixed ∧
    (summarize noIpRaw).publicIpAddress = "--.--.--.--" :=
  ⟨((C6_list_instances eMixed).1 (summarize noIpRaw)).mpr
      ⟨[noIpRaw], by decide, noIpRaw, by decide, by decide, rfl⟩,
   (C6_list_instances eMixed).2.1 noIpRaw (by decide)⟩

/-- Claim C7 counterexample: in the end-to-end scenario (alice inventoried
with address 1.2.3.4 and registerDNS for alice at example.org having
returned true), `terminate_instances` on alice returns 1 but issues no DNS
change whatsoever for the record name alice.example.org. — the
decommissioner's DNS delete uses a hard-coded domain, refuting the claimed
record name. -/
theorem C7_counterexample :
    (register_dns exR53 "alice" "example.org" "1.2.3.4" false).1 =
        RegisterResult.ok true ∧
    (terminate_instances eAlice exR53 "alice").1 = TermResult.ok 1 ∧
    (terminate_instances eAlice exR53 "alice").2.filter
        (isChangeNamed "alice.example.org.") = [] := by
  refine ⟨by decide, by decide, by decide⟩

/-- Claim C7 amended: in the same scenario, `terminate_instances` on alice
returns 1, issues exactly one DNS delete, whose record name is
alice.learning-observer.org. (the domain is fixed to learning-observer.org
by the decommissioner, regardless of the domain used at registration), and
submits one terminate request containing exactly alice's instance id. -/
theorem C7_amended :
    (terminate_instances eAlice exR53 "alice").1 = TermResult.ok 1 ∧
    (terminate_instances eAlice exR53 "alice").2.filter isChangeCall =
      [Event.changeRecordSets
        { zoneId := "Z1", action := "DELETE",
          name := "alice.learning-observer.org.", rtype := "A", ttl := 15,
          value := "1.2.3.4" }] ∧
    (terminate_instances eAlice exR53 "alice").2.filter isTerminateCall =
      [Event.terminateCall ["i-alice"]] := by
  refine ⟨by decide, by decide, by decide⟩

/-- Claim C8: the fixed request parameters are reproduced exactly: every
create request carries a /dev/xvda root volume of 32 GB, type gp2, with
delete-on-termination, and the deployment marker tag learning-observer;
every record change submitted by `register_dns` has type A, TTL 15, and
record name subdomain.domain. with the trailing dot; the inventory filter
is the tag:deploy-group filter on the value learning-observer, so every
listed instance carries the marker tag, and the missing-address sentinel is
the exact placeholder string. -/
theorem C8_fixed_parameters (w : CreateWorld) (cfg : Config) (name : String)
    (w2 : R53World) (sub dom ip : String) (ug : Bool) (s : Ec2State) :
    (∀ req, Event.createCall req ∈ (create_instance w cfg name).2 →
      req.blockDeviceMappings =
        [{ deviceName := "/dev/xvda",
           ebs := { deleteOnTermination := true, volumeSize := 32,
                    volumeType := "gp2" } }] ∧
      ({ key := "deploy-group", value := "learning-observer" } : Tag) ∈
        req.tags) ∧
    (∀ c, Event.changeRecordSets c ∈ (register_dns w2 sub dom ip ug).2 →
      c.rtype = "A" ∧ c.ttl = 15 ∧ c.name = sub ++ "." ++ dom ++ ".") ∧
    deployFilter =
      { name := "tag:deploy-group", values := ["learning-observer"] } ∧
    (∀ summ, summ ∈ list_instances s →
      ∃ res, res ∈ s.reservations ∧ ∃ raw, raw ∈ res ∧
        ({ key := "deploy-group", value := "learning-observer" } : Tag) ∈
          raw.tags ∧ summ = summarize raw) ∧
    (∀ raw : RawInstance, raw.publicIpAddress = none →
      (summarize raw).publicIpAddress = "--.--.--.--") := by
  refine ⟨?_, ?_, rfl, ?_, ?_⟩
  · intro req hreq
    have hr : req = mkCreateRequest cfg name := by
      cases hc : w.createResponse with
      | nil => simpa [create_instance, hc] using hreq
      | cons inst rest => simpa [create_instance, hc] using hreq
    subst hr
    exact ⟨rfl, by simp [mkCreateRequest]⟩
  · intro c hc
    have := register_dns_changes w2 sub dom ip ug c hc
    subst this
    exact ⟨rfl, rfl, rfl⟩
  · intro summ hs
    obtain ⟨res, hres, raw, hraw, hmf, hsum⟩ :=
      (mem_list_instances s summ).mp hs
    exact ⟨res, hres, raw, hraw, matchesFilter_deploy hmf, hsum⟩
  · intro raw h
    simp [summarize, h]

/-- Claim C8 witness: the change parameters at a concrete delete call, read
off through the fixed-parameter theorem. -/
theorem C8_witness :
    (theChange exR53 "alice" "example.org" "1.2.3.4" "DELETE").rtype = "A" ∧
    (theChange exR53 "alice" "example.org" "1.2.3.4" "DELETE").ttl = 15 ∧
    (theChange exR53 "alice" "example.org" "1.2.3.4" "DELETE").name =
      "alice" ++ "." ++ "example.org" ++ "." :=
  (C8_fixed_parameters exCreateWorld exCfg "alice" exR53 "alice"
      "example.org" "1.2.3.4" true eMixed).2.1
    (theChange exR53 "alice" "example.org" "1.2.3.4" "DELETE") (by decide)

/-- Claim C9: an upsert that returns true has issued at least one
get-change poll, the first poll coming right after a one-second sleep that
follows the change submission; and the status carried by the submission
response is never consulted: the whole outcome of `register_dns` is
invariant under that status, so a poll happens even when the submission
response already reads INSYNC. -/
theorem C9_upsert_always_polls (w : R53World) (sub dom ip : String)
    (hz : w.zones.length = 1)
    (hret : (register_dns w sub dom ip false).1 = RegisterResult.ok true) :
    1 ≤ numPolls (register_dns w sub dom ip false).2 ∧
    ((register_dns w sub dom ip false).2.drop 2).take 2 =
      [Event.sleep 1, Event.getChange w.submitInfo.id] ∧
    ∀ st, register_dns
        { w with submitInfo := { id := w.submitInfo.id, status := st } }
        sub dom ip false = register_dns w sub dom ip false := by
  by_cases hp : (pollLoop w.submitInfo.id w.pollStatuses).1 = true
  · have hup : register_dns w sub dom ip false =
        (RegisterResult.ok true,
         [Event.listHostedZones dom,
          Event.changeRecordSets (theChange w sub dom ip "UPSERT")] ++
           (pollLoop w.submitInfo.id w.pollStatuses).2) := by
      simp [register_dns, hz, hp]
    have hne : w.pollStatuses ≠ [] := by
      intro hnil
      rw [hnil] at hp
      exact absurd hp (by simp [pollLoop])
    have hnum : numPolls (register_dns w sub dom ip false).2 =
        numPolls (pollLoop w.submitInfo.id w.pollStatuses).2 := by
      rw [hup]
      simp [numPolls, List.filter_append, isGetChange]
    refine ⟨?_, ?_, fun st => rfl⟩
    · rw [hnum]
      exact (pollLoop_last_poll w.submitInfo.id w.pollStatuses hp).1
    · rw [hup]
      simpa using pollLoop_take_two w.submitInfo.id w.pollStatuses hne
  · exfalso
    have : register_dns w sub dom ip false =
        (RegisterResult.stillPolling,
         [Event.listHostedZones dom,
          Event.changeRecordSets (theChange w sub dom ip "UPSERT")] ++
           (pollLoop w.submitInfo.id w.pollStatuses).2) := by
      simp [register_dns, hz, hp]
    rw [this] at hret
    exact absurd hret (by simp)

/-- Claim C9 witness: at the world whose submission response already reads
INSYNC, the upsert still issues a poll before returning. -/
theorem C9_witness :
    1 ≤ numPolls
      (register_dns exR53Insync "alice" "example.org" "1.2.3.4" false).2 ∧
    exR53Insync.submitInfo.status = "INSYNC" :=
  ⟨(C9_upsert_always_polls exR53Insync "alice" "example.org" "1.2.3.4"
      (by decide) (by decide)).1,
   by decide⟩

/-- Claim C10: the Name-tag lookup is unguarded: in a world whose sole
inventoried instance carries the deployment marker but no Name tag,
`terminate_instances` fails with the KeyError on Name before the countdown,
any DNS delete, or any terminate call (the trace is only the inventory
query), and `name_to_group` fails the same way; under the precondition that
every inventoried instance has a Name tag, neither can raise that error. -/
theorem C10_name_lookup_unguarded :
    ((terminate_instances eNoName exR53 "alice").1 =
        TermResult.keyError "Name" ∧
      (terminate_instances eNoName exR53 "alice").2 =
        [Event.describeInstancesCall [deployFilter]] ∧
      name_to_group eNoName "alice" = Except.error "Name") ∧
    ∀ e : Ec2State, ∀ w : R53World, ∀ name : String,
      (∀ summ ∈ list_instances e, dictGet summ.tags "Name" ≠ none) →
      (∀ k, (terminate_instances e w name).1 ≠ TermResult.keyError k) ∧
      ∀ k, name_to_group e name ≠ Except.error k := by
  constructor
  · exact ⟨by decide, by decide, by rfl⟩
  · intro e w name h
    obtain ⟨ms, hms⟩ := matchName_ok name (list_instances e) h
    constructor
    · intro k
      by_cases hd : (dnsDeletes w name ms).1 = true <;>
        simp [terminate_instances, hms, hd]
    · intro k
      simp [name_to_group, hms]

/-- Claim C10 witness: in the alice-only world (where every summary has a
Name tag), the key-lookup error branch is unreachable. -/
theorem C10_witness :
    (terminate_instances eAlice exR53 "bob").1 ≠
      TermResult.keyError "Name" :=
  ((C10_name_lookup_unguarded).2 eAlice exR53 "bob" (by decide)).1 "Name"

end Orchlib


